import Mathlib

/-!
Verification of the Dusk recording-session controller.

Shallow embedding of the capture/session logic of the repository:
* `src/scripts/screenshot_recorder.py` (`ScreenshotRecorder`, `RecorderHTTPHandler`)
* `src/scripts/headless_recorder.py` (`HeadlessRecorder`, module-level start/stop/run)
* `src/docker/record_test.py` (`ScreenRecorder`, `main`)
* `src/docker/entrypoint.py` (`ServiceManager`, `main`)

External effects (file system, signals, child processes) are made explicit:
functions return, next to their result, the list of effects they perform, and
the behaviour of external collaborators (does the encoder stop gracefully, does
the temp file exist, ...) enters as explicit oracle arguments.
-/

namespace DuskRec

/-- Six-digit zero-padded decimal, as in the Python format `{:06d}`. -/
def pad6 (n : Nat) : String :=
  let s := toString n
  String.mk (List.replicate (6 - s.length) '0') ++ s

/-- Path of the numbered frame file `frame_NNNNNN.png` inside a working
directory (`os.path.join(self.output_dir, f'frame_{...:06d}.png')`). -/
def frameName (dir : String) (i : Nat) : String :=
  dir ++ "/frame_" ++ pad6 i ++ ".png"

/-- `'/'.join` of all but the last path component: `Path(p).parent`. -/
def parentDir (p : String) : String :=
  String.intercalate "/" ((p.splitOn "/").dropLast)

/-- File-system / subprocess effects performed by `ScreenshotRecorder`. -/
inductive FsEffect where
  /-- `os.makedirs(path, exist_ok=True)` / `Path(path).mkdir(parents=True, exist_ok=True)` -/
  | makedirs (path : String)
  /-- `open(path, 'wb').write(...)` -/
  | writeFile (path : String)
  /-- `shutil.rmtree(path, ...)` -/
  | rmtree (path : String)
  /-- `subprocess.run` of the batch ffmpeg encode writing `output` -/
  | runFfmpeg (output : String)
  deriving DecidableEq, Repr

/-- One iteration of the capture loop either obtains a frame from
`take_screenshot_cdp` or not (`None` result, or an exception that the loop
catches and logs). -/
inductive CaptureOutcome where
  | ok
  | failed
  deriving DecidableEq, Repr

/-- State of one `ScreenshotRecorder` object (src/scripts/screenshot_recorder.py).
`ws` models whether `connect_cdp` has established the CDP connection. -/
structure ScreenshotRecorder where
  output_dir : String
  fps : Nat
  recording : Bool
  frame_count : Nat
  ws : Bool
  deriving DecidableEq, Repr

namespace ScreenshotRecorder

/-- `ScreenshotRecorder.__init__` with the default working directory. -/
def init (fps : Nat) : ScreenshotRecorder :=
  { output_dir := "/tmp/dusk-screenshots"
    fps := fps
    recording := false
    frame_count := 0
    ws := false }

/-- `save_frame`: writes `frame_{frame_count:06d}.png` into the working
directory, increments `frame_count`, returns the written path. -/
def save_frame (r : ScreenshotRecorder) : ScreenshotRecorder × String :=
  ({ r with frame_count := r.frame_count + 1 }, frameName r.output_dir r.frame_count)

/-- File-system effects of `save_frame` (ensure the directory, write the frame). -/
def save_frame_effects (r : ScreenshotRecorder) : List FsEffect :=
  [FsEffect.makedirs r.output_dir, FsEffect.writeFile (frameName r.output_dir r.frame_count)]

/-- `start_recording`: sets `recording := True`, resets `frame_count := 0`,
purges the working directory when it exists, recreates it, and spawns the
capture thread (modelled separately by `capture_loop`). -/
def start_recording (r : ScreenshotRecorder) (dirExists : Bool) :
    ScreenshotRecorder × List FsEffect :=
  ({ r with recording := true, frame_count := 0 },
   (if dirExists then [FsEffect.rmtree r.output_dir] else [])
     ++ [FsEffect.makedirs r.output_dir])

/-- One iteration of the capture thread's loop: a captured frame is saved via
`save_frame`; a failed capture (falsy frame, or an exception — caught and
printed) saves nothing and does not touch `frame_count`. -/
def capture_step (r : ScreenshotRecorder) (o : CaptureOutcome) :
    ScreenshotRecorder × List String :=
  match o with
  | CaptureOutcome.ok => let (r2, p) := r.save_frame; (r2, [p])
  | CaptureOutcome.failed => (r, [])

/-- The capture loop run over a finite trace of capture outcomes, collecting
the frame paths written, in the order written. -/
def capture_loop (r : ScreenshotRecorder) : List CaptureOutcome → ScreenshotRecorder × List String
  | [] => (r, [])
  | o :: os =>
    let (r1, ps) := r.capture_step o
    let (r2, qs) := capture_loop r1 os
    (r2, ps ++ qs)

/-- `create_video`: fewer than 2 frames prints a message and returns `None`
without touching the file system.  Otherwise it ensures the output file's
parent directory, runs the batch ffmpeg encode, then always purges the frame
working directory; the path is returned exactly when ffmpeg exited with 0.
An overall `none` models an unhandled exception (the Python would raise a
`TypeError` from `Path(None)` when no output path was ever set); every
reachable call returns `some`. -/
def create_video (r : ScreenshotRecorder) (output_file : Option String) (encodeOk : Bool) :
    Option (Option String × List FsEffect × String) :=
  if r.frame_count < 2 then
    some (none, [], "Not enough frames captured")
  else
    match output_file with
    | none => none
    | some out =>
      some (if encodeOk then some out else none,
            [FsEffect.makedirs (parentDir out), FsEffect.runFfmpeg out,
             FsEffect.rmtree r.output_dir],
            if encodeOk then "Video created: " ++ out else "ffmpeg error")

/-- `stop_recording`: clears the `recording` flag (stopping the loop), waits
for in-flight captures, closes the CDP connection, and builds the video. -/
def stop_recording (r : ScreenshotRecorder) (output_file : Option String) (encodeOk : Bool) :
    ScreenshotRecorder × Option (Option String × List FsEffect × String) :=
  let r1 := { r with recording := false, ws := false }
  (r1, r1.create_video output_file encodeOk)

end ScreenshotRecorder

/-! ### The HTTP control plane (`RecorderHTTPHandler.do_POST`) -/

/-- The fields `do_POST` reads out of a parsed JSON body. -/
structure JsonData where
  debugger_url : Option String
  output : Option String
  fps : Option Nat
  deriving DecidableEq, Repr

/-- A request body: absent, syntactically invalid JSON, or a JSON object. -/
inductive Body where
  | empty
  | malformed
  | json (d : JsonData)
  deriving DecidableEq, Repr

/-- `data = json.loads(body) if body else {}` under `try/except: data = {}`:
an empty body and a malformed body both yield the empty object. -/
def parseBody : Body → JsonData
  | Body.empty => { debugger_url := none, output := none, fps := none }
  | Body.malformed => { debugger_url := none, output := none, fps := none }
  | Body.json d => d

/-- The class-level state of `RecorderHTTPHandler`
(`RecorderHTTPHandler.recorder`, `RecorderHTTPHandler.output_file`). -/
structure HandlerState where
  recorder : Option ScreenshotRecorder
  output_file : Option String
  deriving DecidableEq, Repr

/-- Response sent back for one request.  `noResponse` models an unhandled
exception inside `do_POST` (the connection is dropped without an HTTP
response). -/
inductive Response where
  /-- 200 with body `{'status': 'recording'}` -/
  | startOk
  /-- bare 200 from the `/frame` branch -/
  | frameOk
  /-- 200 with body `{'status': 'stopped', 'output': output}` -/
  | stopOk (output : Option String)
  /-- `send_error(code, msg)` -/
  | error (code : Nat) (msg : String)
  | noResponse
  deriving DecidableEq, Repr

/-- Whether a response is a `send_error` failure response. -/
def Response.isError : Response → Bool
  | Response.error _ _ => true
  | _ => false

/-- Behaviour of the external collaborators during one request. -/
structure Oracles where
  /-- does `websocket.create_connection` succeed in `connect_cdp` -/
  connectOk : Bool
  /-- does the frame working directory exist when `start_recording` runs -/
  dirExists : Bool
  /-- outcome of the single capture performed by the `/frame` branch -/
  frameOutcome : CaptureOutcome
  /-- exit status of the batch ffmpeg encode in `create_video` -/
  encodeOk : Bool
  deriving DecidableEq, Repr

/-- `RecorderHTTPHandler.do_POST`, as a function of the class state, the
request path and body, and the collaborator oracles.  Returns the new class
state, the response, and the file-system effects performed. -/
def do_POST (st : HandlerState) (path : String) (body : Body) (orc : Oracles) :
    HandlerState × Response × List FsEffect :=
  let data := parseBody body
  if path = "/start" then
    -- `if not debugger_url` is a truthiness check: both a missing key and an
    -- empty string are rejected with 400.
    match data.debugger_url with
    | none => (st, Response.error 400 "debugger_url required", [])
    | some url =>
      if url = "" then (st, Response.error 400 "debugger_url required", [])
      else
        let output := data.output.getD "/tmp/dusk-recording.mp4"
        let fps := data.fps.getD 10
        let r0 := ScreenshotRecorder.init fps
        if orc.connectOk then
          let r1 := { r0 with ws := true }
          -- `start_recording(interval_ms=1000 // fps)`: the argument is
          -- evaluated after `connect_cdp`, so `fps = 0` raises
          -- `ZeroDivisionError` there, with the class state already replaced
          -- but `start_recording` never entered.
          if fps = 0 then
            ({ recorder := some r1, output_file := some output },
             Response.noResponse, [])
          else
            let (r2, effs) := r1.start_recording orc.dirExists
            ({ recorder := some r2, output_file := some output },
             Response.startOk, effs)
        else
          ({ recorder := some r0, output_file := some output },
           Response.noResponse, [])
  else if path = "/frame" then
    match st.recorder with
    | some r =>
      if r.ws then
        match orc.frameOutcome with
        | CaptureOutcome.ok =>
          let (r2, _) := r.save_frame
          ({ st with recorder := some r2 }, Response.frameOk, r.save_frame_effects)
        | CaptureOutcome.failed => (st, Response.frameOk, [])
      else (st, Response.frameOk, [])
    | none => (st, Response.frameOk, [])
  else if path = "/stop" then
    match st.recorder with
    | some r =>
      let (r1, res) := r.stop_recording st.output_file orc.encodeOk
      match res with
      | some (out, effs, _) =>
        ({ st with recorder := some r1 }, Response.stopOk out, effs)
      | none => ({ st with recorder := some r1 }, Response.noResponse, [])
    | none => (st, Response.error 400 "No recording in progress", [])
  else
    (st, Response.error 404 "Not found", [])

/-! ### `src/scripts/headless_recorder.py` -/

/-- Process/file effects of the headless recorder CLI. -/
inductive CliAction where
  /-- `subprocess.Popen` of the Xvfb command -/
  | spawnXvfb
  /-- `subprocess.Popen` of the ffmpeg command writing `output` -/
  | spawnFfmpeg (output : String)
  /-- `os.kill(pid, SIGTERM)` -/
  | killPid (pid : Nat)
  /-- writing `b'q'` to ffmpeg's stdin and flushing -/
  | writeQ
  /-- `proc.terminate()` on the named child -/
  | terminate (name : String)
  /-- writing the PID file -/
  | writePidFile (xvfb ffmpeg : Nat) (output : String)
  /-- `os.remove(PID_FILE)` -/
  | removePidFile
  deriving DecidableEq, Repr

/-- Result of one `subprocess.Popen`: the child's PID, or an exception
(e.g. the executable is missing). -/
inductive Launch where
  | ok (pid : Nat)
  | err
  deriving DecidableEq, Repr

/-- Result of the module-level `start_recording` of headless_recorder.py. -/
structure HlStartResult where
  xvfbAlive : Bool
  ffmpegAlive : Bool
  actions : List CliAction
  /-- did the call end in an uncaught exception -/
  raised : Bool
  deriving DecidableEq, Repr

/-- `start_recording(output_file, ...)`: starts Xvfb, then ffmpeg, then saves
the PID file.  There is no exception handling: a failure at any step
propagates, skipping everything after it. -/
def hl_start_recording (output : String) (xvfb ffmpeg : Launch) : HlStartResult :=
  match xvfb with
  | Launch.err =>
    { xvfbAlive := false, ffmpegAlive := false, actions := [CliAction.spawnXvfb],
      raised := true }
  | Launch.ok xp =>
    match ffmpeg with
    | Launch.err =>
      { xvfbAlive := true, ffmpegAlive := false,
        actions := [CliAction.spawnXvfb, CliAction.spawnFfmpeg output], raised := true }
    | Launch.ok fp =>
      { xvfbAlive := true, ffmpegAlive := true,
        actions := [CliAction.spawnXvfb, CliAction.spawnFfmpeg output,
                    CliAction.writePidFile xp fp output],
        raised := false }

/-- `HeadlessRecorder.load_pids`: the parsed PID file, or `None`s when the
file is absent (or too short). -/
def load_pids (pidFile : Option (Nat × Nat × String)) : Option (Nat × Nat × String) :=
  pidFile

/-- Module-level `stop_recording()`: with no PID file it prints
"No recording in progress" and returns; otherwise it SIGTERMs ffmpeg then
Xvfb (ignoring `ProcessLookupError`) and removes the PID file. -/
def hl_stop_recording (pidFile : Option (Nat × Nat × String)) :
    List CliAction × Option String :=
  match load_pids pidFile with
  | none => ([], none)
  | some (xvfb_pid, ffmpeg_pid, output_file) =>
    ([CliAction.killPid ffmpeg_pid, CliAction.killPid xvfb_pid, CliAction.removePidFile],
     some output_file)

/-- `HeadlessRecorder.stop()`: if an ffmpeg handle is held, write `'q'` to its
stdin and wait (up to 5 s), falling back to `terminate()` on any exception;
then, if an Xvfb handle is held, `terminate()` it. -/
def HeadlessRecorder.stop (hasFfmpeg hasXvfb quitsOnQ : Bool) : List CliAction :=
  (if hasFfmpeg then
    (if quitsOnQ then [CliAction.writeQ]
     else [CliAction.writeQ, CliAction.terminate "ffmpeg"])
   else [])
  ++ (if hasXvfb then [CliAction.terminate "Xvfb"] else [])

/-- Outcome of the wrapped test command inside `run_with_recording`:
it returns a code, or is interrupted (`KeyboardInterrupt` raised by SIGINT). -/
inductive RunOutcome where
  | completed (code : Int)
  | interrupted
  deriving DecidableEq, Repr

/-- `run_with_recording(command, output_file, ...)`: starts Xvfb and ffmpeg,
runs the command under `try`, and the `finally` block runs `recorder.stop()`
on both the normal and the exceptional path.  The returned `Option Int` is the
propagated return value (`none` when the interrupt keeps propagating). -/
def run_with_recording (output : String) (outcome : RunOutcome) (quitsOnQ : Bool) :
    List CliAction × Option Int :=
  let stopActs := HeadlessRecorder.stop true true quitsOnQ
  match outcome with
  | RunOutcome.completed code =>
    ([CliAction.spawnXvfb, CliAction.spawnFfmpeg output] ++ stopActs, some code)
  | RunOutcome.interrupted =>
    ([CliAction.spawnXvfb, CliAction.spawnFfmpeg output] ++ stopActs, none)

/-! ### `src/docker/entrypoint.py` -/

/-- One entry of `ServiceManager.processes`: the service name, whether the
child is currently alive (`proc.poll() is None`), and whether it exits within
the 5 s `wait` after `terminate()`. -/
structure MProc where
  name : String
  alive : Bool
  termOk : Bool
  deriving DecidableEq, Repr

/-- Actions `ServiceManager.stop_all` performs on one child. -/
inductive SvcAction where
  | terminate (name : String)
  | wait5 (name : String)
  | kill (name : String)
  deriving DecidableEq, Repr

/-- The loop body of `stop_all` for one `(name, proc)` entry: skip dead
children; `terminate` then `wait(timeout=5)`, escalating to `kill` when the
wait raises. -/
def ServiceManager.stop_one (p : MProc) : List SvcAction :=
  if p.alive then
    if p.termOk then [SvcAction.terminate p.name, SvcAction.wait5 p.name]
    else [SvcAction.terminate p.name, SvcAction.wait5 p.name, SvcAction.kill p.name]
  else []

/-- `ServiceManager.stop_all`: iterates over `reversed(self.processes)`,
stopping each live child; afterwards every managed child is dead (terminated
within the wait, or killed). -/
def ServiceManager.stop_all (ps : List MProc) : List SvcAction × List MProc :=
  ((ps.reverse.map ServiceManager.stop_one).flatten,
   ps.map fun p => { p with alive := false })

/-- How the entrypoint process comes to exit. -/
inductive ExitTrigger where
  | sigint
  | sigterm
  | normal (code : Int)
  deriving DecidableEq, Repr

/-- The exit path of `entrypoint.main`: the installed handlers for SIGINT and
SIGTERM each call `sys.exit(0)`, and the normal path calls
`sys.exit(exit_code)`; every `sys.exit` unwinds through the `atexit`-registered
`cleanup`, which is exactly `services.stop_all()`.  Returns the cleanup
actions, the final service states, and the process exit code. -/
def entrypoint_exit (t : ExitTrigger) (services : List MProc) :
    List SvcAction × List MProc × Int :=
  let (acts, ps) := ServiceManager.stop_all services
  (acts, ps,
   match t with
   | ExitTrigger.sigint => 0
   | ExitTrigger.sigterm => 0
   | ExitTrigger.normal c => c)

/-! ### `src/docker/record_test.py` -/

/-- How the ffmpeg encoder child behaves when `ScreenRecorder.stop` runs:
it exits within the 10 s wait after SIGINT, it hangs until killed, or the
graceful-stop attempt raises some other exception (printed as a warning). -/
inductive EncBehavior where
  | graceful
  | hang
  | sigError
  deriving DecidableEq, Repr

/-- Actions performed by `ScreenRecorder.stop`. -/
inductive RecAction where
  /-- `self.process.send_signal(signal.SIGINT)` -/
  | sendSigint
  /-- `self.process.wait(timeout=t)` -/
  | waitTimeout (t : Nat)
  /-- `self.process.wait()` with no timeout (after `kill`) -/
  | waitNoTimeout
  /-- `self.process.kill()` -/
  | kill
  /-- `Path(p).mkdir(parents=True, exist_ok=True)` -/
  | mkdirParent (p : String)
  /-- `shutil.move(src, dst)` -/
  | move (src dst : String)
  deriving DecidableEq, Repr

/-- State of one `ScreenRecorder` of record_test.py: the configured output
path, the per-PID temp path, and whether `start()` has set `self.process`. -/
structure ScreenRecorder where
  output_file : String
  temp_file : String
  started : Bool
  deriving DecidableEq, Repr

/-- `ScreenRecorder.stop`: `None` process short-circuits; otherwise SIGINT,
wait up to 10 s, kill-and-wait only on `TimeoutExpired`; then the temp file,
when it exists, is moved to the final output path (which is returned), and
`None` is returned when the temp file never appeared. -/
def ScreenRecorder.stop (r : ScreenRecorder) (beh : EncBehavior) (tempExists : Bool) :
    List RecAction × Option String :=
  if r.started = false then ([], none)
  else
    let sigActs :=
      match beh with
      | EncBehavior.graceful => [RecAction.sendSigint, RecAction.waitTimeout 10]
      | EncBehavior.hang =>
        [RecAction.sendSigint, RecAction.waitTimeout 10, RecAction.kill,
         RecAction.waitNoTimeout]
      | EncBehavior.sigError => [RecAction.sendSigint]
    if tempExists then
      (sigActs ++ [RecAction.mkdirParent (parentDir r.output_file),
                   RecAction.move r.temp_file r.output_file],
       some r.output_file)
    else (sigActs, none)

/-- `record_test.main` after argument parsing: `recorder.start()` failing
exits with code 1; otherwise the Dusk test runs, the recorder is stopped, a
missing final file only prints "WARNING: Recording file not created", and the
process exits with the test's exit code.  Returns (exit code, warning printed). -/
def rt_main (r : ScreenRecorder) (startOk : Bool) (testExit : Int)
    (beh : EncBehavior) (tempExists : Bool) (movedExists : Bool) : Int × Bool :=
  if startOk = false then (1, false)
  else
    let final_file := ({ r with started := true }.stop beh tempExists).2
    match final_file with
    | some _ => (testExit, !movedExists)
    | none => (testExit, true)

/-! ## Shared concrete states and helper lemmas -/

/-- A recorder mid-session: recording, five frames captured. -/
def activeRecorder : ScreenshotRecorder :=
  { output_dir := "/tmp/dusk-screenshots", fps := 10, recording := true,
    frame_count := 5, ws := true }

/-- Handler state with an active session writing to `/tmp/a.mp4`. -/
def activeState : HandlerState :=
  { recorder := some activeRecorder, output_file := some "/tmp/a.mp4" }

/-- Default collaborator behaviour: everything succeeds. -/
def defaultOracles : Oracles :=
  { connectOk := true, dirExists := true, frameOutcome := CaptureOutcome.ok,
    encodeOk := true }

/-- The capture loop, started from any recorder state, writes exactly the
frames numbered `frame_count, frame_count + 1, ...` of that state, one per
successful capture, in order, and keeps the working directory. -/
theorem capture_loop_spec (os : List CaptureOutcome) : ∀ r : ScreenshotRecorder,
    (r.capture_loop os).1.output_dir = r.output_dir
    ∧ (r.capture_loop os).1.frame_count = r.frame_count + os.count CaptureOutcome.ok
    ∧ (r.capture_loop os).2
        = (List.range' r.frame_count (os.count CaptureOutcome.ok)).map
            (frameName r.output_dir) := by
  induction os with
  | nil =>
    intro r
    simp [ScreenshotRecorder.capture_loop]
  | cons o os ih =>
    intro r
    cases o with
    | ok =>
      obtain ⟨h1, h2, h3⟩ := ih { r with frame_count := r.frame_count + 1 }
      refine ⟨?_, ?_, ?_⟩
      · simpa [ScreenshotRecorder.capture_loop, ScreenshotRecorder.capture_step,
               ScreenshotRecorder.save_frame] using h1
      · simp only [ScreenshotRecorder.capture_loop, ScreenshotRecorder.capture_step,
                   ScreenshotRecorder.save_frame, List.count_cons_self]
        have hp : ({ r with frame_count := r.frame_count + 1 } :
            ScreenshotRecorder).frame_count = r.frame_count + 1 := rfl
        rw [h2, hp]
        omega
      · simp only [ScreenshotRecorder.capture_loop, ScreenshotRecorder.capture_step,
                   ScreenshotRecorder.save_frame, List.count_cons_self]
        rw [List.range'_succ, List.map_cons]
        simp [h3]
    | failed =>
      obtain ⟨h1, h2, h3⟩ := ih r
      refine ⟨?_, ?_, ?_⟩
      · simpa [ScreenshotRecorder.capture_loop, ScreenshotRecorder.capture_step] using h1
      · simp only [ScreenshotRecorder.capture_loop, ScreenshotRecorder.capture_step]
        rw [h2, List.count_cons_of_ne (by simp)]
      · simp only [ScreenshotRecorder.capture_loop, ScreenshotRecorder.capture_step]
        rw [List.count_cons_of_ne (by simp)]
        simpa using h3

/-! ## Claims -/

/-- C4: starting from `start_recording` (which resets `frame_count` to 0),
whatever the interleaving of successful and failed captures, the frame files
written by the capture loop are exactly `frame_000000.png .. frame_(n-1).png`
for `n = frame_count`, in capture order, with no gaps; failed captures do not
advance the index (`frame_count` equals the number of successful captures). -/
theorem frame_indices_exact (r0 : ScreenshotRecorder) (dirExists : Bool)
    (os : List CaptureOutcome) :
    (((r0.start_recording dirExists).1.capture_loop os).2
        = (List.range (((r0.start_recording dirExists).1.capture_loop os).1.frame_count)).map
            (frameName r0.output_dir))
    ∧ ((r0.start_recording dirExists).1.capture_loop os).1.frame_count
        = os.count CaptureOutcome.ok := by
  obtain ⟨h1, h2, h3⟩ := capture_loop_spec os (r0.start_recording dirExists).1
  have hd : (r0.start_recording dirExists).1.output_dir = r0.output_dir := rfl
  have hc : (r0.start_recording dirExists).1.frame_count = 0 := rfl
  rw [hd] at h3
  rw [hc] at h2 h3
  refine ⟨?_, by simpa using h2⟩
  rw [h3, h2, List.range_eq_range']
  simp

/-- C3: a `FrameSampler` session that captured fewer than 2 frames reports the
insufficient-data condition on `End` (`stop_recording` returns `None` with the
"Not enough frames captured" message, not a crash) and performs no file-system
effect, in particular it creates no artifact file. -/
theorem insufficient_frames_no_artifact (r : ScreenshotRecorder)
    (out : Option String) (encodeOk : Bool) (h : r.frame_count < 2) :
    (r.stop_recording out encodeOk).2
      = some (none, [], "Not enough frames captured") := by
  simp [ScreenshotRecorder.stop_recording, ScreenshotRecorder.create_video, h]

/-- Witness for C3 at a fresh recorder (0 frames captured). -/
theorem insufficient_frames_no_artifact_witness :
    (ScreenshotRecorder.init 10).frame_count < 2
    ∧ ((ScreenshotRecorder.init 10).stop_recording (some "/tmp/a.mp4") true).2
        = some (none, [], "Not enough frames captured") :=
  ⟨by decide,
   insufficient_frames_no_artifact (ScreenshotRecorder.init 10) (some "/tmp/a.mp4")
     true (by decide)⟩

/-- C8: with at least 2 frames, `create_video` runs the batch encode and then
purges the frame working directory as its final file-system effect, whether
the encode succeeded or failed; and `start_recording` purges the working
directory (when it exists) at the start of every new recording. -/
theorem workdir_purged (r s : ScreenshotRecorder) (out : String) (encodeOk : Bool)
    (h : 2 ≤ r.frame_count) :
    (∃ res effs msg, r.create_video (some out) encodeOk = some (res, effs, msg)
        ∧ effs.getLast? = some (FsEffect.rmtree r.output_dir)
        ∧ FsEffect.runFfmpeg out ∈ effs)
    ∧ FsEffect.rmtree s.output_dir ∈ (s.start_recording true).2 := by
  constructor
  · refine ⟨if encodeOk then some out else none,
      [FsEffect.makedirs (parentDir out), FsEffect.runFfmpeg out,
       FsEffect.rmtree r.output_dir],
      if encodeOk then "Video created: " ++ out else "ffmpeg error", ?_, ?_, ?_⟩
    · simp [ScreenshotRecorder.create_video, Nat.not_lt.mpr h]
    · rfl
    · simp
  · simp [ScreenshotRecorder.start_recording]

/-- Witness for C8 at a recorder with 2 captured frames. -/
theorem workdir_purged_witness :
    2 ≤ activeRecorder.frame_count
    ∧ ((∃ res effs msg,
          activeRecorder.create_video (some "/tmp/a.mp4") false = some (res, effs, msg)
          ∧ effs.getLast? = some (FsEffect.rmtree activeRecorder.output_dir)
          ∧ FsEffect.runFfmpeg "/tmp/a.mp4" ∈ effs)
       ∧ FsEffect.rmtree activeRecorder.output_dir
           ∈ (activeRecorder.start_recording true).2) :=
  ⟨by decide,
   workdir_purged activeRecorder activeRecorder "/tmp/a.mp4" false (by decide)⟩

/-- C1 (counterexample): with a session already active (`activeState`), a
second `/start` request is answered 200 `{'status': 'recording'}` — not an
error — and the handler state changes (recorder and output path replaced), so
the second `Start` neither fails with `AlreadyActiveError` nor leaves the
active session untouched. -/
theorem second_start_accepted :
    Response.isError (do_POST activeState "/start"
        (Body.json { debugger_url := some "ws://127.0.0.1:9222/devtools/page/1",
                     output := some "/tmp/b.mp4", fps := some 10 })
        defaultOracles).2.1 = false
    ∧ (do_POST activeState "/start"
        (Body.json { debugger_url := some "ws://127.0.0.1:9222/devtools/page/1",
                     output := some "/tmp/b.mp4", fps := some 10 })
        defaultOracles).1 ≠ activeState := by
  decide

/-- C1 (amended): the handler never checks for an active session: given any
active session, a further `/start` carrying a non-empty debugger URL and a
non-zero frame rate is answered 200 `{'status': 'recording'}` and the class
state is replaced by a fresh session (new recorder with `frame_count = 0`,
new output path); the prior session is dropped without being stopped. -/
theorem second_start_replaces_session (st : HandlerState) (r : ScreenshotRecorder)
    (d : JsonData) (url : String) (orc : Oracles)
    (hr : st.recorder = some r) (hrec : r.recording = true)
    (hurl : d.debugger_url = some url) (hne : url ≠ "")
    (hfps : d.fps.getD 10 ≠ 0) (hc : orc.connectOk = true) :
    (do_POST st "/start" (Body.json d) orc).2.1 = Response.startOk
    ∧ (do_POST st "/start" (Body.json d) orc).1
        = { recorder := some { ScreenshotRecorder.init (d.fps.getD 10) with
              ws := true, recording := true, frame_count := 0 },
            output_file := some (d.output.getD "/tmp/dusk-recording.mp4") } := by
  constructor <;>
    simp [do_POST, parseBody, hurl, hne, hfps, hc,
          ScreenshotRecorder.start_recording, ScreenshotRecorder.init]

/-- Witness for C1 (amended) at `activeState`. -/
theorem second_start_replaces_session_witness :
    activeState.recorder = some activeRecorder
    ∧ activeRecorder.recording = true
    ∧ (JsonData.mk (some "ws://y") (some "/tmp/b.mp4") (some 10)).debugger_url
        = some "ws://y"
    ∧ ("ws://y" : String) ≠ ""
    ∧ (JsonData.mk (some "ws://y") (some "/tmp/b.mp4") (some 10)).fps.getD 10 ≠ 0
    ∧ defaultOracles.connectOk = true
    ∧ ((do_POST activeState "/start"
          (Body.json (JsonData.mk (some "ws://y") (some "/tmp/b.mp4") (some 10)))
          defaultOracles).2.1 = Response.startOk
       ∧ (do_POST activeState "/start"
            (Body.json (JsonData.mk (some "ws://y") (some "/tmp/b.mp4") (some 10)))
            defaultOracles).1
          = { recorder := some { ScreenshotRecorder.init
                ((JsonData.mk (some "ws://y") (some "/tmp/b.mp4") (some 10)).fps.getD 10)
                with ws := true, recording := true, frame_count := 0 },
              output_file := some ((JsonData.mk (some "ws://y") (some "/tmp/b.mp4")
                (some 10)).output.getD "/tmp/dusk-recording.mp4") }) :=
  ⟨rfl, rfl, rfl, by decide, by decide, rfl,
   second_start_replaces_session activeState activeRecorder
     (JsonData.mk (some "ws://y") (some "/tmp/b.mp4") (some 10)) "ws://y"
     defaultOracles rfl rfl rfl (by decide) (by decide) rfl⟩

/-- C6: `Stop` while no session is active has no side effects and fails with
the not-active condition: the HTTP `/stop` branch answers
`400 No recording in progress`, leaving the class state unchanged and
performing no file-system effect, and the CLI `stop_recording` with no PID
file signals no process, removes no file, and creates nothing. -/
theorem stop_while_idle_no_side_effects (st : HandlerState) (body : Body)
    (orc : Oracles) (h : st.recorder = none) :
    do_POST st "/stop" body orc
      = (st, Response.error 400 "No recording in progress", [])
    ∧ hl_stop_recording none = ([], none) := by
  refine ⟨?_, rfl⟩
  simp [do_POST, h]

/-- Witness for C6 at the initial handler state. -/
theorem stop_while_idle_no_side_effects_witness :
    (HandlerState.mk none none).recorder = none
    ∧ (do_POST (HandlerState.mk none none) "/stop" Body.empty defaultOracles
        = (HandlerState.mk none none, Response.error 400 "No recording in progress", [])
       ∧ hl_stop_recording none = ([], none)) :=
  ⟨rfl, stop_while_idle_no_side_effects (HandlerState.mk none none) Body.empty
    defaultOracles rfl⟩

/-- C9 (counterexample): a `/frame` request whose body is malformed JSON is
answered with a plain 200, not a bad-request error, so a malformed body does
not yield a bad-request response. -/
theorem malformed_body_not_bad_request :
    (do_POST (HandlerState.mk none none) "/frame" Body.malformed
        defaultOracles).2.1 = Response.frameOk
    ∧ Response.isError (do_POST (HandlerState.mk none none) "/frame" Body.malformed
        defaultOracles).2.1 = false := by
  decide

/-- C9 (amended): a request to an unknown path is answered with the 404
not-found error, with unchanged state and no effects; a malformed body never
yields a bad-request response for being malformed — it is parsed to the empty
object, so every request behaves exactly as with an empty body; in both cases
`do_POST` returns a proper response (the server does not crash). -/
theorem unknown_path_404_malformed_as_empty (st : HandlerState) (path : String)
    (body : Body) (orc : Oracles)
    (h1 : path ≠ "/start") (h2 : path ≠ "/frame") (h3 : path ≠ "/stop") :
    do_POST st path body orc = (st, Response.error 404 "Not found", [])
    ∧ ∀ (st2 : HandlerState) (p : String) (orc2 : Oracles),
        do_POST st2 p Body.malformed orc2 = do_POST st2 p Body.empty orc2 := by
  refine ⟨?_, fun st2 p orc2 => rfl⟩
  simp [do_POST, h1, h2, h3]

/-- Witness for C9 (amended) at the unknown path `/bogus`. -/
theorem unknown_path_404_malformed_as_empty_witness :
    ("/bogus" ≠ "/start" ∧ "/bogus" ≠ "/frame" ∧ "/bogus" ≠ "/stop")
    ∧ (do_POST (HandlerState.mk none none) "/bogus" Body.empty defaultOracles
        = (HandlerState.mk none none, Response.error 404 "Not found", [])
       ∧ ∀ (st2 : HandlerState) (p : String) (orc2 : Oracles),
           do_POST st2 p Body.malformed orc2 = do_POST st2 p Body.empty orc2) :=
  ⟨⟨by decide, by decide, by decide⟩,
   unknown_path_404_malformed_as_empty (HandlerState.mk none none) "/bogus"
     Body.empty defaultOracles (by decide) (by decide) (by decide)⟩

/-- C2: both signal handlers of the entrypoint exit through the same
`atexit`-registered cleanup (`ServiceManager.stop_all`) as the normal exit
path, so the cleanup actions performed on an interrupt or terminate signal
equal those of an explicit stop, and afterwards no managed child process
(virtual display, driver) is alive; likewise `run_with_recording` runs
`recorder.stop()` in its `finally`, performing the identical stop actions
(graceful ffmpeg quit, Xvfb terminate) whether the wrapped command completed
or was interrupted. -/
theorem signal_cleanup_same_as_stop (services : List MProc) (c code : Int)
    (output : String) (q : Bool) :
    (entrypoint_exit ExitTrigger.sigint services).1
        = (entrypoint_exit (ExitTrigger.normal c) services).1
    ∧ (entrypoint_exit ExitTrigger.sigterm services).1
        = (entrypoint_exit (ExitTrigger.normal c) services).1
    ∧ ((entrypoint_exit ExitTrigger.sigint services).2.1.all fun p => !p.alive) = true
    ∧ ((entrypoint_exit ExitTrigger.sigterm services).2.1.all fun p => !p.alive) = true
    ∧ (run_with_recording output RunOutcome.interrupted q).1
        = (run_with_recording output (RunOutcome.completed code) q).1 := by
  refine ⟨rfl, rfl, ?_, ?_, rfl⟩ <;>
    simp [entrypoint_exit, ServiceManager.stop_all, List.all_map, Function.comp]

/-- C5: `ScreenRecorder.stop` with a started encoder first sends the graceful
SIGINT (never an initial kill), waits up to 10 s, force-kills exactly when the
wait times out, then moves the temp file to the final artifact path and
returns it; when the temp file does not exist it returns `None` (artifact
missing) and performs no move. -/
theorem encoder_stop_graceful (r : ScreenRecorder) (beh : EncBehavior)
    (tempExists : Bool) (h : r.started = true) :
    (r.stop beh tempExists).1.head? = some RecAction.sendSigint
    ∧ (RecAction.kill ∈ (r.stop beh tempExists).1 ↔ beh = EncBehavior.hang)
    ∧ (tempExists = true →
        (r.stop beh tempExists).2 = some r.output_file
        ∧ RecAction.move r.temp_file r.output_file ∈ (r.stop beh tempExists).1)
    ∧ (tempExists = false →
        (r.stop beh tempExists).2 = none
        ∧ ∀ a b, RecAction.move a b ∉ (r.stop beh tempExists).1) := by
  cases beh <;> cases tempExists <;> simp [ScreenRecorder.stop, h]

/-- A started recorder of record_test.py, as configured by `main`. -/
def rtRecorder : ScreenRecorder :=
  { output_file := "/recordings/t.webm", temp_file := "/tmp/recording_42.webm",
    started := true }

/-- Witness for C5 at a started recorder whose encoder hangs and whose temp
file exists. -/
theorem encoder_stop_graceful_witness :
    rtRecorder.started = true
    ∧ ((rtRecorder.stop EncBehavior.hang true).1.head? = some RecAction.sendSigint
       ∧ (RecAction.kill ∈ (rtRecorder.stop EncBehavior.hang true).1
            ↔ EncBehavior.hang = EncBehavior.hang)
       ∧ (true = true →
           (rtRecorder.stop EncBehavior.hang true).2 = some rtRecorder.output_file
           ∧ RecAction.move rtRecorder.temp_file rtRecorder.output_file
               ∈ (rtRecorder.stop EncBehavior.hang true).1)
       ∧ (true = false →
           (rtRecorder.stop EncBehavior.hang true).2 = none
           ∧ ∀ a b, RecAction.move a b ∉ (rtRecorder.stop EncBehavior.hang true).1)) :=
  ⟨rfl, encoder_stop_graceful rtRecorder EncBehavior.hang true rfl⟩

/-- C7 (counterexample): a concrete failed `Start` — Xvfb launched (pid 100),
then the ffmpeg launch (`Begin`) fails — after which the display process is
still alive and the action trace shows no stop of it, contradicting
cleanup-on-partial-failure. -/
theorem begin_failure_leaks_display :
    (hl_start_recording "/tmp/rec.mp4" (Launch.ok 100) Launch.err).xvfbAlive = true
    ∧ (hl_start_recording "/tmp/rec.mp4" (Launch.ok 100) Launch.err).raised = true
    ∧ (hl_start_recording "/tmp/rec.mp4" (Launch.ok 100) Launch.err).actions
        = [CliAction.spawnXvfb, CliAction.spawnFfmpeg "/tmp/rec.mp4"] := by
  decide

/-- C7 (amended): when `Begin` (the ffmpeg launch) fails after the display
process was launched, `start_recording` propagates the exception without
stopping the display: the Xvfb process remains alive and no terminate or kill
action is performed. -/
theorem begin_failure_leaves_display_running (output : String) (xp : Nat) :
    (hl_start_recording output (Launch.ok xp) Launch.err).xvfbAlive = true
    ∧ (hl_start_recording output (Launch.ok xp) Launch.err).raised = true
    ∧ (∀ n, CliAction.terminate n
        ∉ (hl_start_recording output (Launch.ok xp) Launch.err).actions)
    ∧ (∀ p, CliAction.killPid p
        ∉ (hl_start_recording output (Launch.ok xp) Launch.err).actions) := by
  refine ⟨rfl, rfl, ?_, ?_⟩ <;> intro x <;> simp [hl_start_recording]

/-- C10: whenever the encoder started successfully, `record_test.main` exits
with exactly the Dusk test's exit code, for every stop behaviour and artifact
outcome; a stop that produces no artifact file only raises the warning and
never changes the exit status. -/
theorem exit_code_is_test_exit (r : ScreenRecorder) (testExit : Int)
    (beh : EncBehavior) (tempExists movedExists : Bool) :
    (rt_main r true testExit beh tempExists movedExists).1 = testExit
    ∧ (rt_main r true testExit beh false movedExists).2 = true := by
  cases beh <;> cases tempExists <;> simp [rt_main, ScreenRecorder.stop]

end DuskRec
